import Mathlib

/-!
Shallow embedding of the BitBuffet TypeScript client
(`src/apps/node/src/bitbuffet.ts`): the `BitBuffet` constructor and the
`extract` method.  JS numbers are modelled as `Rat` (no arithmetic is
performed on them), the zod schema and the zod-to-json-schema serializer are
modelled as an abstract capability record, and the axios transport is a
function argument.  `extract` returns, besides its outcome, a trace of the
HTTP requests issued and of the values passed to schema validation, so that
"no network call was made" and "validation was never invoked" are provable
statements.
-/

namespace BitBuffet

/-- `type ExtractionMethod = 'json' | 'markdown'` (bitbuffet.ts line 10). -/
inductive ExtractionMethod where
  | json
  | markdown
deriving DecidableEq, Repr

/-- `type ReasoningEffort = 'medium' | 'high'` (bitbuffet.ts line 9). -/
inductive ReasoningEffort where
  | medium
  | high
deriving DecidableEq, Repr

/-- `BaseConfig` together with the optional `format` discriminator of
`JsonConfig` / `MarkdownConfig` (bitbuffet.ts lines 12-25).  `format = none`
models a JS object on which the key `format` is absent, so that the runtime
test `'format' in schemaOrConfig` is `format.isSome`. -/
structure Config where
  format : Option ExtractionMethod := none
  temperature : Option Rat := none
  prompt : Option String := none
  reasoning_effort : Option ReasoningEffort := none
  top_p : Option Rat := none
deriving DecidableEq, Repr

/-- The zod schema capability as bitbuffet.ts uses it: `zodToJsonSchema`
serialization to a declarative wire form (modelled as an opaque string) and
`parse`, which either returns the typed value or throws a `ZodError`
carrying the full list of issues. -/
structure ZodSchema (D T : Type) where
  toJsonSchema : String
  parse : D → Except (List String) T

/-- `zodToJsonSchema(schema)` (bitbuffet.ts line 130). -/
def zodToJsonSchema {D T : Type} (s : ZodSchema D T) : String :=
  s.toJsonSchema

/-- The value of the local variable `schema` after argument parsing
(bitbuffet.ts line 85 / 99): `undefined`, a genuine zod schema, or — when a
config object with no `format` key was passed in the schema slot — a plain
object cast to `ZodSchema` by `schemaOrConfig as ZodSchema<T>`. -/
inductive SchemaSlot (D T : Type) where
  | undef
  | zod (s : ZodSchema D T)
  | nonSchema (c : Config)

/-- JS truthiness of the `schema` local: only `undefined` is falsy. -/
def SchemaSlot.truthy {D T : Type} : SchemaSlot D T → Bool
  | .undef => false
  | .zod _ => true
  | .nonSchema _ => true

/-- The second positional argument of `extract`
(`schemaOrConfig?: ZodSchema<T> | MarkdownConfig | JsonConfig`). -/
inductive SchemaOrConfig (D T : Type) where
  | schema (s : ZodSchema D T)
  | config (c : Config)
  | undef

/-- The third positional argument of `extract`
(`configOrTimeout?: JsonConfig | MarkdownConfig | number`). -/
inductive ConfigOrTimeout where
  | config (c : Config)
  | num (n : Rat)
  | undef
deriving DecidableEq, Repr

/-- `const DEFAULT_TIMEOUT = 60000` (bitbuffet.ts line 7). -/
def DEFAULT_TIMEOUT : Rat := 60000

/-- The local state `(format, schema, config, actualTimeout)` produced by the
argument-parsing block of `extract` (bitbuffet.ts lines 84-106). -/
structure ParsedArgs (D T : Type) where
  format : ExtractionMethod
  schema : SchemaSlot D T
  config : Config
  actualTimeout : Rat

/-- The `else` branch of the argument dispatch (bitbuffet.ts lines 97-106):
the second argument went into the `schema` local; a third-argument object is
the config (its `format || 'json'` selects the mode), a third-argument
number is the timeout. -/
def parseSchemaBranch {D T : Type} (slot : SchemaSlot D T)
    (cot : ConfigOrTimeout) (timeout : Rat) : ParsedArgs D T :=
  match cot with
  | .config c => { format := c.format.getD .json, schema := slot, config := c,
                   actualTimeout := timeout }
  | .num n => { format := .json, schema := slot, config := {}, actualTimeout := n }
  | .undef => { format := .json, schema := slot, config := {}, actualTimeout := timeout }

/-- The argument-parsing block of `extract` (bitbuffet.ts lines 84-106).
The `if` guard of line 90 (`schemaOrConfig && typeof schemaOrConfig ===
'object' && 'format' in schemaOrConfig`) holds exactly for a config object
whose `format` key is present; every other second argument falls into the
schema branch. -/
def parseArgs {D T : Type} (soc : SchemaOrConfig D T) (cot : ConfigOrTimeout)
    (timeout : Rat) : ParsedArgs D T :=
  match soc with
  | .config c =>
    match c.format with
    | some f =>
      { format := f, schema := .undef, config := c,
        actualTimeout := match cot with | .num n => n | _ => timeout }
    | none => parseSchemaBranch (.nonSchema c) cot timeout
  | .schema s => parseSchemaBranch (.zod s) cot timeout
  | .undef => parseSchemaBranch .undef cot timeout

/-- The distinct failures `extract` can surface, one constructor per throw
site of bitbuffet.ts, carrying the data the throw site interpolates.
`jsTypeError` models the JS TypeError produced outside this file's logic
when a value that is not a zod schema reaches `zodToJsonSchema` or
`schema!.parse` (a path no overload admits). -/
inductive ExtractError where
  | parameterConflict
  | modeMismatchJsonRequired
  | modeMismatchMarkdownForbidden
  | apiError (serverError : Option String)
  | validationError (issues : List String)
  | transportError (causeMsg : String)
  | jsTypeError
deriving DecidableEq, Repr

/-- Embedding of the JS expression `a || b` for an optional string `a`:
`undefined` and the empty string are falsy (bitbuffet.ts line 155). -/
def jsOr (a : Option String) (b : String) : String :=
  match a with
  | some s => if s = "" then b else s
  | none => b

/-- The `message` of the `Error` each throw site of bitbuffet.ts constructs. -/
def ExtractError.message : ExtractError → String
  | .parameterConflict =>
      "Cannot specify both 'temperature' and 'top_p' parameters. Please use only one."
  | .modeMismatchJsonRequired => "json_schema is required when format is 'json'"
  | .modeMismatchMarkdownForbidden =>
      "json_schema should not be defined when format is 'markdown'"
  | .apiError e => "API returned error: " ++ jsOr e "Unknown error"
  | .validationError issues => "Validation failed: " ++ String.intercalate "; " issues
  | .transportError cause => "API request failed: " ++ cause
  | .jsTypeError => "TypeError"

/-- The validation block of `extract` (bitbuffet.ts lines 108-121), returning
the first failing check, in source order: temperature/top_p conflict, then
json-without-schema, then markdown-with-schema. -/
def validateParams {D T : Type} (p : ParsedArgs D T) : Option ExtractError :=
  if p.config.temperature.isSome && p.config.top_p.isSome then
    some .parameterConflict
  else if p.format == .json && !p.schema.truthy then
    some .modeMismatchJsonRequired
  else if p.format == .markdown && p.schema.truthy then
    some .modeMismatchMarkdownForbidden
  else
    none

/-- The wire payload (bitbuffet.ts lines 123-146): a field is `none` exactly
when the code never executed the corresponding `payload.x = ...` line, i.e.
when the key is absent from the JSON body. -/
structure Payload where
  url : String
  format : ExtractionMethod
  json_schema : Option String := none
  reasoning_effort : Option ReasoningEffort := none
  prompt : Option String := none
  top_p : Option Rat := none
  temperature : Option Rat := none
deriving DecidableEq, Repr

/-- The `json_schema` field of the payload (bitbuffet.ts lines 128-132):
`zodToJsonSchema(schema)` when `format === 'json' && schema`, absent
otherwise; a non-schema value reaching `zodToJsonSchema` is the external
library's TypeError. -/
def jsonSchemaField {D T : Type} (p : ParsedArgs D T) :
    Except ExtractError (Option String) :=
  if p.format == .json && p.schema.truthy then
    match p.schema with
    | .zod s => .ok (some (zodToJsonSchema s))
    | .nonSchema _ => .error .jsTypeError
    | .undef => .ok none
  else
    .ok none

/-- Payload assembly (bitbuffet.ts lines 123-146).  `json_schema` is set by
`zodToJsonSchema(schema)` when `format === 'json' && schema`; each optional
config field is copied iff it was supplied. -/
def buildPayload {D T : Type} (url : String) (p : ParsedArgs D T) :
    Except ExtractError Payload :=
  match jsonSchemaField p with
  | .error e => .error e
  | .ok js =>
    .ok { url := url, format := p.format, json_schema := js,
          reasoning_effort := p.config.reasoning_effort,
          prompt := p.config.prompt,
          top_p := p.config.top_p,
          temperature := p.config.temperature }

/-- The server envelope `{ success, data, error? }` (bitbuffet.ts line 152). -/
structure Envelope (D : Type) where
  success : Bool
  data : D
  error : Option String := none
deriving DecidableEq, Repr

/-- What one `this.client.post` call does: returns an envelope, or throws a
transport-level (axios) error with a message. -/
inductive TransportResult (D : Type) where
  | ok (env : Envelope D)
  | fail (msg : String)

/-- The result and the values sent to `schema.parse` in the response-handling
block of `extract` (bitbuffet.ts lines 152-164). -/
inductive Outcome (D T : Type) where
  | structured (value : T)
  | markdown (content : D)
deriving DecidableEq, Repr

/-- Response interpretation (bitbuffet.ts lines 152-164), together with the
list of values passed to the schema-validation capability. -/
def handleResponse {D T : Type} (p : ParsedArgs D T) (env : Envelope D) :
    Except ExtractError (Outcome D T) × List D :=
  if !env.success then
    (.error (.apiError env.error), [])
  else if p.format == .markdown then
    (.ok (.markdown env.data), [])
  else
    match p.schema with
    | .zod s =>
      match s.parse env.data with
      | .error issues => (.error (.validationError issues), [env.data])
      | .ok v => (.ok (.structured v), [env.data])
    | _ => (.error .jsTypeError, [])

/-- One HTTP request as issued: the JSON body and the per-call timeout
(bitbuffet.ts lines 148-150). -/
structure Request where
  payload : Payload
  timeoutMs : Rat
deriving DecidableEq, Repr

/-- The observable side effects of one `extract` call: every request handed
to the HTTP capability and every value handed to schema validation. -/
structure Trace (D : Type) where
  requests : List Request
  validated : List D

/-- `BitBuffet.extract` (bitbuffet.ts lines 77-175): parse the arguments,
validate, assemble the payload, post it once, interpret the envelope.  The
transport is the external HTTP capability.  Errors are returned (the TS code
throws them); the trace records the collaborator invocations. -/
def extract {D T : Type} (url : String) (soc : SchemaOrConfig D T)
    (cot : ConfigOrTimeout) (timeout : Rat)
    (transport : Payload → Rat → TransportResult D) :
    Except ExtractError (Outcome D T) × Trace D :=
  let p := parseArgs soc cot timeout
  match validateParams p with
  | some e => (.error e, ⟨[], []⟩)
  | none =>
    match buildPayload url p with
    | .error e => (.error e, ⟨[], []⟩)
    | .ok payload =>
      match transport payload p.actualTimeout with
      | .fail msg => (.error (.transportError msg), ⟨[⟨payload, p.actualTimeout⟩], []⟩)
      | .ok env =>
        let r := handleResponse p env
        (r.1, ⟨[⟨payload, p.actualTimeout⟩], r.2⟩)

/-- `const BASE_API_URL = "https://api.bitbuffet.dev"` (bitbuffet.ts line 5). -/
def BASE_API_URL : String := "https://api.bitbuffet.dev"

/-- `const BASE_API_VERSION = "v1"` (bitbuffet.ts line 6). -/
def BASE_API_VERSION : String := "v1"

/-- The immutable client state the constructor fixes (bitbuffet.ts lines
27-44): `baseUrl` and the axios instance headers. -/
structure ClientConfig where
  baseUrl : String
  authorizationHeader : String
  contentTypeHeader : String
deriving DecidableEq, Repr

/-- The characters JS `String.prototype.trim` strips: the ECMAScript
WhiteSpace production (TAB, VT, FF, SP, NBSP, ZWNBSP and every Unicode
Space_Separator) together with the LineTerminator production (LF, CR, LS,
PS). -/
def jsWhitespace (c : Char) : Bool :=
  c = ' ' || c = '\t' || c = '\n' || c = '\r' || c = '\x0b' || c = '\x0c'
    || c = '\u00A0' || c = '\uFEFF' || c = '\u1680'
    || ('\u2000' ≤ c && c ≤ '\u200A')
    || c = '\u2028' || c = '\u2029' || c = '\u202F' || c = '\u205F'
    || c = '\u3000'

/-- Embedding of JS `String.prototype.trim`: strips leading and trailing
whitespace. -/
def jsTrim (s : String) : String :=
  ⟨((s.data.dropWhile jsWhitespace).reverse.dropWhile jsWhitespace).reverse⟩

/-- `new BitBuffet(apiKey)` (bitbuffet.ts lines 31-44): rejects an API key
that is falsy (the empty string) or whose `trim()` is falsy, otherwise fixes
the base URL and the bearer-token header. -/
def mkBitBuffet (apiKey : String) : Except String ClientConfig :=
  if apiKey = "" || jsTrim apiKey = "" then
    .error "API key is required. Please provide a valid API key when initializing the BitBuffet."
  else
    .ok { baseUrl := BASE_API_URL ++ "/" ++ BASE_API_VERSION,
          authorizationHeader := "Bearer " ++ apiKey,
          contentTypeHeader := "application/json" }

/-! ### Concrete sample values used to instantiate the theorems -/

/-- A concrete schema over `D = String`, `T = Nat`: parses the string `"7"`
to `7` and reports two violations on anything else. -/
def sampleSchema : ZodSchema String Nat :=
  { toJsonSchema := "sample-wire-schema",
    parse := fun d => if d = "7" then .ok 7 else .error ["bad", "worse"] }

/-- A config carrying both mutually exclusive sampling parameters. -/
def conflictConfig : Config :=
  { temperature := some 1, top_p := some 1 }

/-! ### The claims -/

/-- C1: when the second argument of `extract` is a plain configuration
object whose mode indicator (the `format` key) is present, that object is
taken as the configuration, the indicator selects the mode, and a numeric
third argument is taken as the timeout.  (Within this branch the indicator
is present by hypothesis, so the default-to-json clause is vacuous; an
object without the key is not dispatched to this branch at all.) -/
theorem extract_config_second_arg_selects_mode {D T : Type} (c : Config)
    (m : ExtractionMethod) (cot : ConfigOrTimeout) (timeout : Rat)
    (h : c.format = some m) :
    (parseArgs (D := D) (T := T) (.config c) cot timeout).config = c
    ∧ (parseArgs (D := D) (T := T) (.config c) cot timeout).format = m
    ∧ ∀ n : Rat,
        (parseArgs (D := D) (T := T) (.config c) (.num n) timeout).actualTimeout = n := by
  refine ⟨?_, ?_, ?_⟩ <;> simp [parseArgs, h]

/-- C1 witness: a markdown config object with a numeric third argument. -/
theorem extract_config_second_arg_selects_mode_witness :
    ({ format := some ExtractionMethod.markdown, temperature := some 1 } : Config).format
        = some ExtractionMethod.markdown
    ∧ ((parseArgs (D := String) (T := Nat)
          (.config { format := some ExtractionMethod.markdown, temperature := some 1 })
          (.num 5) DEFAULT_TIMEOUT).config
        = { format := some ExtractionMethod.markdown, temperature := some 1 }
      ∧ (parseArgs (D := String) (T := Nat)
          (.config { format := some ExtractionMethod.markdown, temperature := some 1 })
          (.num 5) DEFAULT_TIMEOUT).format = ExtractionMethod.markdown
      ∧ ∀ n : Rat,
          (parseArgs (D := String) (T := Nat)
            (.config { format := some ExtractionMethod.markdown, temperature := some 1 })
            (.num n) DEFAULT_TIMEOUT).actualTimeout = n) :=
  ⟨rfl, extract_config_second_arg_selects_mode _ _ _ _ rfl⟩

/-- C3: a resolved configuration supplying both `temperature` and `top_p`
makes `extract` fail with the parameter-conflict error, and the HTTP
collaborator is invoked zero times (the request trace is empty). -/
theorem extract_parameter_conflict_no_network {D T : Type} (url : String)
    (soc : SchemaOrConfig D T) (cot : ConfigOrTimeout) (timeout : Rat)
    (transport : Payload → Rat → TransportResult D)
    (h1 : (parseArgs soc cot timeout).config.temperature.isSome = true)
    (h2 : (parseArgs soc cot timeout).config.top_p.isSome = true) :
    extract url soc cot timeout transport
      = (.error .parameterConflict, ⟨[], []⟩) := by
  have hv : validateParams (parseArgs soc cot timeout) = some .parameterConflict := by
    simp [validateParams, h1, h2]
  simp [extract, hv]

/-- C3 witness: both sampling parameters supplied alongside a schema. -/
theorem extract_parameter_conflict_no_network_witness :
    (parseArgs (.schema sampleSchema) (.config conflictConfig)
        DEFAULT_TIMEOUT).config.temperature.isSome = true
    ∧ (parseArgs (.schema sampleSchema) (.config conflictConfig)
        DEFAULT_TIMEOUT).config.top_p.isSome = true
    ∧ extract "https://example.com" (.schema sampleSchema) (.config conflictConfig)
        DEFAULT_TIMEOUT (fun _ _ => .fail "unused")
      = (.error .parameterConflict, ⟨[], []⟩) :=
  ⟨rfl, rfl,
    extract_parameter_conflict_no_network "https://example.com" (.schema sampleSchema)
      (.config conflictConfig) DEFAULT_TIMEOUT (fun _ _ => .fail "unused") rfl rfl⟩

/-- C10: when both sampling parameters are supplied and the mode/schema
combination is also invalid, the error raised is the parameter conflict:
the mutual-exclusion check of bitbuffet.ts line 109 runs before the
mode/schema checks of lines 114 and 119. -/
theorem extract_conflict_precedes_mode_checks {D T : Type} (url : String)
    (soc : SchemaOrConfig D T) (cot : ConfigOrTimeout) (timeout : Rat)
    (transport : Payload → Rat → TransportResult D)
    (h1 : (parseArgs soc cot timeout).config.temperature.isSome = true)
    (h2 : (parseArgs soc cot timeout).config.top_p.isSome = true)
    (_h3 : ((parseArgs soc cot timeout).format = .json
            ∧ (parseArgs soc cot timeout).schema.truthy = false)
        ∨ ((parseArgs soc cot timeout).format = .markdown
            ∧ (parseArgs soc cot timeout).schema.truthy = true)) :
    extract url soc cot timeout transport
      = (.error .parameterConflict, ⟨[], []⟩) := by
  have hv : validateParams (parseArgs soc cot timeout) = some .parameterConflict := by
    simp [validateParams, h1, h2]
  simp [extract, hv]

/-- C10 witness: json mode with no schema (second argument absent) and both
sampling parameters in the third-argument config. -/
theorem extract_conflict_precedes_mode_checks_witness :
    (parseArgs (D := String) (T := Nat) .undef (.config conflictConfig)
        DEFAULT_TIMEOUT).config.temperature.isSome = true
    ∧ (parseArgs (D := String) (T := Nat) .undef (.config conflictConfig)
        DEFAULT_TIMEOUT).config.top_p.isSome = true
    ∧ ((parseArgs (D := String) (T := Nat) .undef (.config conflictConfig)
          DEFAULT_TIMEOUT).format = .json
        ∧ (parseArgs (D := String) (T := Nat) .undef (.config conflictConfig)
            DEFAULT_TIMEOUT).schema.truthy = false)
    ∧ extract "https://example.com" (.undef : SchemaOrConfig String Nat)
        (.config conflictConfig) DEFAULT_TIMEOUT (fun _ _ => .fail "unused")
      = (.error .parameterConflict, ⟨[], []⟩) :=
  ⟨rfl, rfl, ⟨rfl, rfl⟩,
    extract_conflict_precedes_mode_checks "https://example.com" .undef
      (.config conflictConfig) DEFAULT_TIMEOUT (fun _ _ => .fail "unused") rfl rfl
      (Or.inl ⟨rfl, rfl⟩)⟩

/-- C9: constructing the client with an empty or whitespace-only API key
fails with the configuration error; any other key succeeds and fixes the
base URL and the bearer-token header (the `ClientConfig` value, which no
operation of this development mutates). -/
theorem mkBitBuffet_key_validation (apiKey : String) :
    (jsTrim apiKey = "" →
      mkBitBuffet apiKey
        = .error "API key is required. Please provide a valid API key when initializing the BitBuffet.")
    ∧ (jsTrim apiKey ≠ "" →
      mkBitBuffet apiKey
        = .ok { baseUrl := BASE_API_URL ++ "/" ++ BASE_API_VERSION,
                authorizationHeader := "Bearer " ++ apiKey,
                contentTypeHeader := "application/json" }) := by
  constructor
  · intro h
    simp [mkBitBuffet, h]
  · intro h
    have h0 : apiKey ≠ "" := fun e => h (by rw [e]; rfl)
    simp [mkBitBuffet, h, h0]

/-- C9 witness: an ASCII-whitespace-only key and a no-break-space-only key
are rejected, a plain key is accepted with the fixed base URL and bearer
header. -/
theorem mkBitBuffet_key_validation_witness :
    mkBitBuffet "  "
      = .error "API key is required. Please provide a valid API key when initializing the BitBuffet."
    ∧ mkBitBuffet "\u00A0"
      = .error "API key is required. Please provide a valid API key when initializing the BitBuffet."
    ∧ mkBitBuffet "my-key"
      = .ok { baseUrl := BASE_API_URL ++ "/" ++ BASE_API_VERSION,
              authorizationHeader := "Bearer " ++ "my-key",
              contentTypeHeader := "application/json" } :=
  ⟨(mkBitBuffet_key_validation "  ").1 (by decide),
   (mkBitBuffet_key_validation "\u00A0").1 (by decide),
   (mkBitBuffet_key_validation "my-key").2 (by decide)⟩

/-- A config with no sampling conflict carrying every optional payload field
the claims mention. -/
def richConfig : Config :=
  { prompt := some "focus", reasoning_effort := some .high }

/-- The payload assembled by a json call with `sampleSchema` and `richConfig`. -/
def richPayload : Payload :=
  { url := "https://example.com", format := .json,
    json_schema := some "sample-wire-schema",
    reasoning_effort := some .high, prompt := some "focus" }

/-- The payload assembled by a bare json call with `sampleSchema`. -/
def samplePayload : Payload :=
  { url := "https://example.com", format := .json,
    json_schema := some "sample-wire-schema" }

/-- Passing the validation block is exactly: no sampling-parameter conflict,
a truthy schema when the mode is json, no schema when it is markdown. -/
theorem validateParams_none_iff {D T : Type} (p : ParsedArgs D T) :
    validateParams p = none ↔
      ((p.config.temperature.isSome && p.config.top_p.isSome) = false
      ∧ (p.format = .json → p.schema.truthy = true)
      ∧ (p.format = .markdown → p.schema.truthy = false)) := by
  cases hf : p.format <;>
    cases ht : p.config.temperature.isSome <;>
      cases hq : p.config.top_p.isSome <;>
        cases hs : p.schema.truthy <;>
          simp [validateParams, hf, ht, hq, hs]

/-- C2: with no sampling-parameter conflict, a call resolving to json with no
schema fails with the json mode-mismatch error, a call resolving to markdown
with a schema fails with the (distinct) markdown mode-mismatch error, and in
both cases the request trace is empty: no network request is made. -/
theorem extract_mode_mismatch_rejected_before_network {D T : Type} (url : String)
    (soc : SchemaOrConfig D T) (cot : ConfigOrTimeout) (timeout : Rat)
    (transport : Payload → Rat → TransportResult D)
    (hc : ¬((parseArgs soc cot timeout).config.temperature.isSome = true
            ∧ (parseArgs soc cot timeout).config.top_p.isSome = true)) :
    ((parseArgs soc cot timeout).format = .json
        ∧ (parseArgs soc cot timeout).schema.truthy = false →
      extract url soc cot timeout transport
        = (.error .modeMismatchJsonRequired, ⟨[], []⟩))
    ∧ ((parseArgs soc cot timeout).format = .markdown
        ∧ (parseArgs soc cot timeout).schema.truthy = true →
      extract url soc cot timeout transport
        = (.error .modeMismatchMarkdownForbidden, ⟨[], []⟩))
    ∧ ExtractError.message .modeMismatchJsonRequired
        ≠ ExtractError.message .modeMismatchMarkdownForbidden := by
  have hcb : ((parseArgs soc cot timeout).config.temperature.isSome
      && (parseArgs soc cot timeout).config.top_p.isSome) = false := by
    cases a : (parseArgs soc cot timeout).config.temperature.isSome <;>
      cases b : (parseArgs soc cot timeout).config.top_p.isSome <;> simp_all
  refine ⟨?_, ?_, ?_⟩
  · rintro ⟨hf, hs⟩
    have hv : validateParams (parseArgs soc cot timeout)
        = some .modeMismatchJsonRequired := by
      simp [validateParams, hcb, hf, hs]
    simp [extract, hv]
  · rintro ⟨hf, hs⟩
    have hv : validateParams (parseArgs soc cot timeout)
        = some .modeMismatchMarkdownForbidden := by
      simp [validateParams, hcb, hf, hs]
    simp [extract, hv]
  · decide

/-- C2 witness: a json call with the schema absent and a markdown call with a
schema supplied, both against a transport that is never reached. -/
theorem extract_mode_mismatch_rejected_before_network_witness :
    ¬((parseArgs (D := String) (T := Nat) .undef .undef
          DEFAULT_TIMEOUT).config.temperature.isSome = true
      ∧ (parseArgs (D := String) (T := Nat) .undef .undef
          DEFAULT_TIMEOUT).config.top_p.isSome = true)
    ∧ extract "https://example.com" (.undef : SchemaOrConfig String Nat) .undef
        DEFAULT_TIMEOUT (fun _ _ => .fail "unused")
      = (.error .modeMismatchJsonRequired, ⟨[], []⟩)
    ∧ extract "https://example.com" (.schema sampleSchema)
        (.config { format := some .markdown }) DEFAULT_TIMEOUT
        (fun _ _ => .fail "unused")
      = (.error .modeMismatchMarkdownForbidden, ⟨[], []⟩) :=
  ⟨by decide,
   (extract_mode_mismatch_rejected_before_network "https://example.com" .undef .undef
      DEFAULT_TIMEOUT (fun _ _ => .fail "unused") (by decide)).1 ⟨rfl, rfl⟩,
   (extract_mode_mismatch_rejected_before_network "https://example.com"
      (.schema sampleSchema) (.config { format := some .markdown }) DEFAULT_TIMEOUT
      (fun _ _ => .fail "unused") (by decide)).2.1 ⟨rfl, rfl⟩⟩

/-- C4: a call that passes validation assembles a payload carrying the url
and the resolved mode, carrying a serialized schema under `json_schema`
exactly when the mode is json, carrying each optional field iff the caller
supplied it (an unsupplied field is absent, never a placeholder), and hands
exactly that payload to the transport. -/
theorem extract_payload_assembly {D T : Type} (url : String)
    (soc : SchemaOrConfig D T) (cot : ConfigOrTimeout) (timeout : Rat)
    (transport : Payload → Rat → TransportResult D) (pay : Payload)
    (hv : validateParams (parseArgs soc cot timeout) = none)
    (hb : buildPayload url (parseArgs soc cot timeout) = .ok pay) :
    pay.url = url
    ∧ pay.format = (parseArgs soc cot timeout).format
    ∧ ((parseArgs soc cot timeout).format = .json →
        ∃ s, (parseArgs soc cot timeout).schema = .zod s
          ∧ pay.json_schema = some (zodToJsonSchema s))
    ∧ ((parseArgs soc cot timeout).format = .markdown → pay.json_schema = none)
    ∧ pay.reasoning_effort = (parseArgs soc cot timeout).config.reasoning_effort
    ∧ pay.prompt = (parseArgs soc cot timeout).config.prompt
    ∧ pay.top_p = (parseArgs soc cot timeout).config.top_p
    ∧ pay.temperature = (parseArgs soc cot timeout).config.temperature
    ∧ (extract url soc cot timeout transport).2.requests
        = [⟨pay, (parseArgs soc cot timeout).actualTimeout⟩] := by
  obtain ⟨hcb, hjson, hmd⟩ := (validateParams_none_iff _).mp hv
  cases hjs : jsonSchemaField (parseArgs soc cot timeout) with
  | error e =>
    exfalso
    unfold buildPayload at hb
    rw [hjs] at hb
    exact Except.noConfusion hb
  | ok js =>
    have h := hb
    unfold buildPayload at h
    rw [hjs] at h
    injection h with h
    subst h
    refine ⟨rfl, rfl, ?_, ?_, rfl, rfl, rfl, rfl, ?_⟩
    · intro hf
      have ht := hjson hf
      simp [jsonSchemaField, hf, ht] at hjs
      cases hsch : (parseArgs soc cot timeout).schema with
      | zod s =>
        rw [hsch] at hjs
        simp only [Except.ok.injEq] at hjs
        exact ⟨s, rfl, hjs.symm⟩
      | nonSchema c =>
        rw [hsch] at hjs
        simp at hjs
      | undef =>
        rw [hsch] at ht
        simp [SchemaSlot.truthy] at ht
    · intro hf
      simp [jsonSchemaField, hf] at hjs
      simp [hjs.symm]
    · simp only [extract, hv, hb]
      split <;> rfl

/-- C4 witness: json call with schema, prompt and reasoning effort supplied,
temperature and top_p absent. -/
theorem extract_payload_assembly_witness :
    validateParams (parseArgs (.schema sampleSchema) (.config richConfig)
        DEFAULT_TIMEOUT) = none
    ∧ buildPayload "https://example.com"
        (parseArgs (.schema sampleSchema) (.config richConfig) DEFAULT_TIMEOUT)
      = .ok richPayload
    ∧ (extract "https://example.com" (.schema sampleSchema) (.config richConfig)
        DEFAULT_TIMEOUT (fun _ _ => .fail "down")).2.requests
      = [⟨richPayload, DEFAULT_TIMEOUT⟩] :=
  ⟨rfl, rfl,
   (extract_payload_assembly "https://example.com" (.schema sampleSchema)
      (.config richConfig) DEFAULT_TIMEOUT (fun _ _ => .fail "down") richPayload
      rfl rfl).2.2.2.2.2.2.2.2⟩

/-- C5: when the transport returns an envelope with `success = false`, the
call fails with the api error; its message carries the envelope error string
when present and is the generic message when the string is absent. -/
theorem extract_api_error_carries_server_error {D T : Type} (url : String)
    (soc : SchemaOrConfig D T) (cot : ConfigOrTimeout) (timeout : Rat)
    (pay : Payload) (env : Envelope D)
    (hv : validateParams (parseArgs soc cot timeout) = none)
    (hb : buildPayload url (parseArgs soc cot timeout) = .ok pay)
    (hs : env.success = false) :
    (extract url soc cot timeout (fun _ _ => .ok env)).1
        = .error (.apiError env.error)
    ∧ (∀ e, env.error = some e →
        ∃ pre suf, (ExtractError.apiError env.error).message = pre ++ e ++ suf)
    ∧ (env.error = none →
        (ExtractError.apiError env.error).message
          = "API returned error: Unknown error") := by
  refine ⟨?_, ?_, ?_⟩
  · simp only [extract, hv, hb]
    simp [handleResponse, hs]
  · intro e he
    rw [he]
    by_cases hcase : e = ""
    · subst hcase
      exact ⟨"API returned error: Unknown error", "",
        by simp [ExtractError.message, jsOr]⟩
    · exact ⟨"API returned error: ", "",
        by simp [ExtractError.message, jsOr, hcase]⟩
  · intro he
    rw [he]
    simp [ExtractError.message, jsOr]

/-- C5 witness: the server reports a logical failure with an error string. -/
theorem extract_api_error_carries_server_error_witness :
    validateParams (parseArgs (.schema sampleSchema) .undef DEFAULT_TIMEOUT) = none
    ∧ buildPayload "https://example.com"
        (parseArgs (.schema sampleSchema) .undef DEFAULT_TIMEOUT) = .ok samplePayload
    ∧ (⟨false, "d", some "Failed to extract the provided URL"⟩
        : Envelope String).success = false
    ∧ (extract "https://example.com" (.schema sampleSchema) .undef DEFAULT_TIMEOUT
        (fun _ _ => .ok ⟨false, "d", some "Failed to extract the provided URL"⟩)).1
      = .error (.apiError (some "Failed to extract the provided URL")) :=
  ⟨rfl, rfl, rfl,
   (extract_api_error_carries_server_error "https://example.com"
      (.schema sampleSchema) .undef DEFAULT_TIMEOUT samplePayload
      ⟨false, "d", some "Failed to extract the provided URL"⟩ rfl rfl rfl).1⟩

/-- C6: a json call whose envelope has `success = true` passes the envelope
data through the schema-validation capability; a violation list makes the
call fail with the validation error carrying that full list, and a
successful parse returns the typed value. -/
theorem extract_json_validates_envelope_data {D T : Type} (url : String)
    (soc : SchemaOrConfig D T) (cot : ConfigOrTimeout) (timeout : Rat)
    (s : ZodSchema D T) (env : Envelope D)
    (hv : validateParams (parseArgs soc cot timeout) = none)
    (hf : (parseArgs soc cot timeout).format = .json)
    (hsch : (parseArgs soc cot timeout).schema = .zod s)
    (hs : env.success = true) :
    (extract url soc cot timeout (fun _ _ => .ok env)).2.validated = [env.data]
    ∧ (∀ issues, s.parse env.data = .error issues →
        (extract url soc cot timeout (fun _ _ => .ok env)).1
          = .error (.validationError issues))
    ∧ (∀ v, s.parse env.data = .ok v →
        (extract url soc cot timeout (fun _ _ => .ok env)).1
          = .ok (.structured v)) := by
  have hjs : jsonSchemaField (parseArgs soc cot timeout)
      = .ok (some (zodToJsonSchema s)) := by
    simp [jsonSchemaField, hf, hsch, SchemaSlot.truthy]
  refine ⟨?_, ?_, ?_⟩
  · simp only [extract, hv, buildPayload, hjs]
    cases hp : s.parse env.data <;>
      simp [handleResponse, hs, hf, hsch, hp]
  · intro issues hp
    simp only [extract, hv, buildPayload, hjs]
    simp [handleResponse, hs, hf, hsch, hp]
  · intro v hp
    simp only [extract, hv, buildPayload, hjs]
    simp [handleResponse, hs, hf, hsch, hp]

/-- C6 witness: `sampleSchema` rejects the data `"8"` with its two
violations and accepts `"7"`. -/
theorem extract_json_validates_envelope_data_witness :
    validateParams (parseArgs (.schema sampleSchema) .undef DEFAULT_TIMEOUT) = none
    ∧ (parseArgs (.schema sampleSchema) .undef DEFAULT_TIMEOUT).format = .json
    ∧ (parseArgs (.schema sampleSchema) .undef
        DEFAULT_TIMEOUT).schema = .zod sampleSchema
    ∧ (extract "https://example.com" (.schema sampleSchema) .undef DEFAULT_TIMEOUT
        (fun _ _ => .ok ⟨true, "8", none⟩)).1
      = .error (.validationError ["bad", "worse"])
    ∧ (extract "https://example.com" (.schema sampleSchema) .undef DEFAULT_TIMEOUT
        (fun _ _ => .ok ⟨true, "7", none⟩)).1 = .ok (.structured 7) :=
  ⟨rfl, rfl, rfl,
   (extract_json_validates_envelope_data "https://example.com" (.schema sampleSchema)
      .undef DEFAULT_TIMEOUT sampleSchema ⟨true, "8", none⟩
      rfl rfl rfl rfl).2.1 ["bad", "worse"] rfl,
   (extract_json_validates_envelope_data "https://example.com" (.schema sampleSchema)
      .undef DEFAULT_TIMEOUT sampleSchema ⟨true, "7", none⟩
      rfl rfl rfl rfl).2.2 7 rfl⟩

/-- C7: a markdown call whose envelope has `success = true` returns the
envelope data unchanged, and the schema-validation capability is never
invoked (the validation trace is empty). -/
theorem extract_markdown_passthrough_no_validation {D T : Type} (url : String)
    (soc : SchemaOrConfig D T) (cot : ConfigOrTimeout) (timeout : Rat)
    (env : Envelope D)
    (hv : validateParams (parseArgs soc cot timeout) = none)
    (hf : (parseArgs soc cot timeout).format = .markdown)
    (hs : env.success = true) :
    (extract url soc cot timeout (fun _ _ => .ok env)).1 = .ok (.markdown env.data)
    ∧ (extract url soc cot timeout (fun _ _ => .ok env)).2.validated = [] := by
  have hjs : jsonSchemaField (parseArgs soc cot timeout) = .ok none := by
    simp [jsonSchemaField, hf]
  constructor <;>
    simp [extract, hv, buildPayload, hjs, handleResponse, hs, hf]

/-- C7 witness: a markdown config call returning raw content. -/
theorem extract_markdown_passthrough_no_validation_witness :
    validateParams (parseArgs (D := String) (T := Nat)
        (.config { format := some .markdown }) .undef DEFAULT_TIMEOUT) = none
    ∧ (parseArgs (D := String) (T := Nat) (.config { format := some .markdown })
        .undef DEFAULT_TIMEOUT).format = .markdown
    ∧ (⟨true, "# heading", none⟩ : Envelope String).success = true
    ∧ (extract "https://example.com"
        (.config { format := some .markdown } : SchemaOrConfig String Nat) .undef
        DEFAULT_TIMEOUT (fun _ _ => .ok ⟨true, "# heading", none⟩)).1
      = .ok (.markdown "# heading")
    ∧ (extract "https://example.com"
        (.config { format := some .markdown } : SchemaOrConfig String Nat) .undef
        DEFAULT_TIMEOUT (fun _ _ => .ok ⟨true, "# heading", none⟩)).2.validated
      = [] :=
  ⟨rfl, rfl, rfl,
   (extract_markdown_passthrough_no_validation "https://example.com"
      (.config { format := some .markdown }) .undef DEFAULT_TIMEOUT
      ⟨true, "# heading", none⟩ rfl rfl rfl).1,
   (extract_markdown_passthrough_no_validation "https://example.com"
      (.config { format := some .markdown }) .undef DEFAULT_TIMEOUT
      ⟨true, "# heading", none⟩ rfl rfl rfl).2⟩

/-- C8: when the transport throws, the call fails with the transport error,
whose message includes the underlying cause message, and exactly one request
was issued: the call is never retried. -/
theorem extract_transport_error_wrapped_no_retry {D T : Type} (url : String)
    (soc : SchemaOrConfig D T) (cot : ConfigOrTimeout) (timeout : Rat)
    (pay : Payload) (m : String)
    (hv : validateParams (parseArgs soc cot timeout) = none)
    (hb : buildPayload url (parseArgs soc cot timeout) = .ok pay) :
    (extract url soc cot timeout (fun _ _ => .fail m)).1
        = .error (.transportError m)
    ∧ (∃ pre suf, (ExtractError.transportError m).message = pre ++ m ++ suf)
    ∧ (extract url soc cot timeout (fun _ _ => .fail m)).2.requests.length = 1 := by
  refine ⟨?_, ⟨"API request failed: ", "", ?_⟩, ?_⟩
  · simp [extract, hv, hb]
  · simp [ExtractError.message]
  · simp [extract, hv, hb]

/-- C8 witness: a connection-level failure. -/
theorem extract_transport_error_wrapped_no_retry_witness :
    validateParams (parseArgs (.schema sampleSchema) .undef DEFAULT_TIMEOUT) = none
    ∧ buildPayload "https://example.com"
        (parseArgs (.schema sampleSchema) .undef DEFAULT_TIMEOUT) = .ok samplePayload
    ∧ (extract "https://example.com" (.schema sampleSchema) .undef DEFAULT_TIMEOUT
        (fun _ _ => .fail "connect ECONNREFUSED")).1
      = .error (.transportError "connect ECONNREFUSED")
    ∧ (extract "https://example.com" (.schema sampleSchema) .undef DEFAULT_TIMEOUT
        (fun _ _ => .fail "connect ECONNREFUSED")).2.requests.length = 1 :=
  ⟨rfl, rfl,
   (extract_transport_error_wrapped_no_retry "https://example.com"
      (.schema sampleSchema) .undef DEFAULT_TIMEOUT samplePayload
      "connect ECONNREFUSED" rfl rfl).1,
   (extract_transport_error_wrapped_no_retry "https://example.com"
      (.schema sampleSchema) .undef DEFAULT_TIMEOUT samplePayload
      "connect ECONNREFUSED" rfl rfl).2.2⟩

end BitBuffet
